import Mathlib

/-!
Verification development for the device-tree path resolution subsystem of
`libguard` (`src/libguard/devtree/phal_devtree.cpp`).

Strings are embedded as `List Nat` of ASCII byte values, mirroring the C
`char` buffers the code manipulates.  The external pdbg topology store is
modelled as a list of nodes carrying the two optional attributes the code
reads; the traversal primitive follows the contract given for it
(visit nodes in order, stop at the first nonzero visitor result, return 0
when every visitor call returned 0).
-/

/-- ASCII byte value of the path separator `/`. -/
def slashByte : Nat := 47

/-- `::tolower` restricted to ASCII, as applied bytewise by
`std::transform(..., ::tolower)` in `getEntityPathFromDevTree`. -/
def tolower (b : Nat) : Nat :=
  if 65 ≤ b ∧ b ≤ 90 then b + 32 else b

/-- Bytewise lower-casing of a whole string
(`std::transform(l_physicalPath.begin(), ..., ::tolower)`). -/
def lowerStr (s : List Nat) : List Nat :=
  s.map tolower

/-- `if (!l_physicalPath.compare(0, 1, "/")) l_physicalPath.erase(0, 1);`:
drop the first byte exactly when it is `/`. -/
def stripLeadingSlash : List Nat → List Nat
  | [] => []
  | b :: bs => if b = slashByte then bs else b :: bs

/-- Helper for byte strings written as Lean string literals. -/
def strBytes (s : String) : List Nat :=
  s.toList.map (fun c => c.toNat)

/-- The scheme token `"physical:"` as ASCII bytes. -/
def physicalToken : List Nat := [112, 104, 121, 115, 105, 99, 97, 108, 58]

/-- Does the token occur as a prefix of the string?  Bytewise comparison, as
`std::string::find` performs at each candidate position. -/
def tokenAt : List Nat → List Nat → Bool
  | [], _ => true
  | _ :: _, [] => false
  | t :: ts, b :: bs => t == b && tokenAt ts bs

/-- `l_physicalPath.find("physical:", 0, 9) != std::string::npos`: the token
occurs somewhere (at any position) in the string. -/
def hasToken (tok : List Nat) : List Nat → Bool
  | [] => false
  | b :: bs => tokenAt tok (b :: bs) || hasToken tok bs

/-- The normalization performed by `getEntityPathFromDevTree` before the
traversal (lines 113-138 of `phal_devtree.cpp`): lower-case every byte, strip
one leading `/`, and prepend `"physical:"` when `std::string::find` does not
locate that token anywhere in the string. -/
def normalizePath (s : List Nat) : List Nat :=
  if hasToken physicalToken (stripLeadingSlash (lowerStr s)) then
    stripLeadingSlash (lowerStr s)
  else
    physicalToken ++ stripLeadingSlash (lowerStr s)

/-- One element of an entity path, a `(targetType, instance)` byte pair.
Modelled from the spec: the `EntityPath` structure is declared in
`phal_devtree.hpp`, which is not under `src/`; the spec describes each
element as a pair of bytes.  The C field `instance` is a Lean keyword and is
rendered `inst`. -/
structure PathElement where
  targetType : Nat
  inst : Nat
deriving DecidableEq

/-- Modelled from the spec: the `EntityPath` result structure (declared in
`phal_devtree.hpp`, not under `src/`): `type_size` is the raw first byte
(type nibble and element count nibble) and `pathElements` the decoded
element pairs.  The fixed-capacity C array is rendered as the list of the
populated elements; entries past the decoded count are zero/unspecified in
the C structure and carry no information. -/
structure EntityPath where
  type_size : Nat
  pathElements : List PathElement
deriving DecidableEq

/-- Modelled from the spec: the buffer capacities and the element-count bound
are `sizeof` values and a constant from headers not under `src/`
(`ATTR_PHYS_DEV_PATH_Type`, `ATTR_PHYS_BIN_PATH_Type`, `EntityPath`), so they
are carried as parameters. -/
structure GuardConfig where
  physStringPathSize : Nat
  physBinaryPathSize : Nat
  entityPathSize : Nat
  maxPathElements : Nat
deriving DecidableEq

/-- The internal error kinds of the resolution pipeline (spec §7).  The
public boundary collapses them all to an absent result. -/
inductive GuardErr where
  | TooLong
  | NotFound
  | AttributeMissing
  | SizeMismatch
  | CountOverflow
deriving DecidableEq

/-- Callback return: continue the target traversal. -/
def continueTgtTraversal : Int := 0

/-- Callback return: the binary attribute was found on the matching node. -/
def requireAttrFound : Int := 1

/-- Callback return: the matching node lacks the binary attribute. -/
def requireAttrNotFound : Int := 2

/-- Modelled from the spec: a topology node as seen by this subsystem — the
optional string-form path attribute (`ATTR_PHYS_DEV_PATH`) and the optional
binary-form path attribute (`ATTR_PHYS_BIN_PATH`). -/
structure DevTreeNode where
  physDevPath : Option (List Nat)
  physBinPath : Option (List Nat)

/-- The visitor `pdbgCallbackToGetPhysicaBinaryPath` (lines 56-109).  `gStr`
is the content of the global `g_physStringPath`; the second component models
the value the callback stores into `g_physBinaryPath` when it finds the
binary attribute (the buffer is cleared with `memset` first, so unset tail
bytes read as 0). -/
def pdbgCallbackToGetPhysicaBinaryPath (gStr : List Nat) (node : DevTreeNode) :
    Int × Option (List Nat) :=
  match node.physDevPath with
  | none => (continueTgtTraversal, none)
  | some physStringPath =>
    if physStringPath ≠ gStr then
      (continueTgtTraversal, none)
    else
      match node.physBinPath with
      | none => (requireAttrNotFound, none)
      | some b => (requireAttrFound, some b)

/-- Modelled from the spec: `pdbg_traverse` (external collaborator, §6) —
walks the nodes in an implementation-defined order, stops at the first
visitor call returning nonzero and returns its code, returns 0 when no
visitor call returned nonzero.  The order is fixed here as the list order;
the second component carries the global binary buffer the callback wrote. -/
def pdbg_traverse (gStr : List Nat) : List DevTreeNode → Int × Option (List Nat)
  | [] => (0, none)
  | node :: rest =>
    if (pdbgCallbackToGetPhysicaBinaryPath gStr node).fst = continueTgtTraversal then
      pdbg_traverse gStr rest
    else
      pdbgCallbackToGetPhysicaBinaryPath gStr node

/-- Decode the elements of the raw binary buffer (lines 211-216): element `i`
is read at byte offsets `1 + 2*i` (targetType) and `2 + 2*i` (instance).
Out-of-attribute bytes read as 0 because the buffer was `memset` to zero. -/
def decodePathElements (bin : List Nat) (count : Nat) : List PathElement :=
  (List.range count).map fun i =>
    { targetType := bin.getD (1 + 2 * i) 0, inst := bin.getD (2 + 2 * i) 0 }

/-- The binary decoding performed after a successful traversal (lines
184-217): the defensive capacity comparison, the low-nibble element count
check against `maxPathElements`, then the element extraction. -/
def decodeBinaryPath (cfg : GuardConfig) (bin : List Nat) :
    Except GuardErr EntityPath :=
  if cfg.entityPathSize < cfg.physBinaryPathSize then
    .error .SizeMismatch
  else if (bin.getD 0 0) &&& 0x0F > cfg.maxPathElements then
    .error .CountOverflow
  else
    .ok { type_size := bin.getD 0 0,
          pathElements := decodePathElements bin ((bin.getD 0 0) &&& 0x0F) }

/-- Dispatch on the traversal result (lines 169-182): 0 means no node
matched, `requireAttrNotFound` means the matching node lacked the binary
attribute, anything else proceeds to decode the captured binary buffer. -/
def traverseResultToEntityPath (cfg : GuardConfig) (r : Int × Option (List Nat)) :
    Except GuardErr EntityPath :=
  if r.fst = 0 then
    .error .NotFound
  else if r.fst = requireAttrNotFound then
    .error .AttributeMissing
  else
    decodeBinaryPath cfg (r.snd.getD [])

/-- `getEntityPathFromDevTree` (lines 111-218) with the internal error kind
exposed.  The length guard is the code's own
`(l_physicalPath.length() - 1) > sizeof(g_physStringPath)`; note the `- 1`
(the comment in the source says "To include NULL terminator").  `strncpy`
into the fixed buffer truncates the stored search string to the buffer
size, modelled by `List.take`. -/
def getEntityPathFromDevTreeE (cfg : GuardConfig) (tree : List DevTreeNode)
    (physicalPath : List Nat) : Except GuardErr EntityPath :=
  if (normalizePath physicalPath).length - 1 > cfg.physStringPathSize then
    .error .TooLong
  else
    traverseResultToEntityPath cfg
      (pdbg_traverse ((normalizePath physicalPath).take cfg.physStringPathSize) tree)

/-- The public boundary: every failure collapses to an absent result
(`std::nullopt`). -/
def getEntityPathFromDevTree (cfg : GuardConfig) (tree : List DevTreeNode)
    (physicalPath : List Nat) : Option EntityPath :=
  (getEntityPathFromDevTreeE cfg tree physicalPath).toOption

deriving instance DecidableEq for Except

theorem physicalToken_spelling : physicalToken = strBytes "physical:" := by decide

theorem tolower_tolower (b : Nat) : tolower (tolower b) = tolower b := by
  unfold tolower
  split_ifs <;> omega

theorem lowerStr_lowerStr (s : List Nat) : lowerStr (lowerStr s) = lowerStr s := by
  unfold lowerStr
  rw [List.map_map]
  exact List.map_congr_left fun a _ => tolower_tolower a

theorem lowerStr_stripLeadingSlash {s : List Nat} (h : lowerStr s = s) :
    lowerStr (stripLeadingSlash s) = stripLeadingSlash s := by
  cases s with
  | nil => rfl
  | cons b bs =>
    simp only [lowerStr, List.map_cons, List.cons.injEq] at h
    simp only [stripLeadingSlash]
    split_ifs
    · exact h.2
    · simp only [lowerStr, List.map_cons, h.1, h.2]

theorem lowerStr_append {s t : List Nat} (hs : lowerStr s = s) (ht : lowerStr t = t) :
    lowerStr (s ++ t) = s ++ t := by
  simp only [lowerStr, List.map_append] at *
  rw [hs, ht]

theorem lowerStr_physicalToken : lowerStr physicalToken = physicalToken := by decide

theorem normalizePath_lowered (s : List Nat) :
    lowerStr (normalizePath s) = normalizePath s := by
  unfold normalizePath
  split_ifs
  · exact lowerStr_stripLeadingSlash (lowerStr_lowerStr s)
  · exact lowerStr_append lowerStr_physicalToken
      (lowerStr_stripLeadingSlash (lowerStr_lowerStr s))

theorem tokenAt_append (ts l : List Nat) : tokenAt ts (ts ++ l) = true := by
  induction ts with
  | nil => rfl
  | cons t ts ih => simp [tokenAt, ih]

theorem hasToken_physicalToken_append (l : List Nat) :
    hasToken physicalToken (physicalToken ++ l) = true := by
  have h := tokenAt_append physicalToken l
  simp only [physicalToken, List.cons_append, List.nil_append] at h ⊢
  simp [hasToken, h]

theorem hasToken_normalizePath (s : List Nat) :
    hasToken physicalToken (normalizePath s) = true := by
  unfold normalizePath
  split_ifs with h
  · exact h
  · exact hasToken_physicalToken_append _

theorem stripLeadingSlash_of_head_ne {s : List Nat} (h : s.headD 0 ≠ slashByte) :
    stripLeadingSlash s = s := by
  cases s with
  | nil => rfl
  | cons b bs =>
    simp only [List.headD_cons] at h
    simp [stripLeadingSlash, h]

theorem normalizePath_fixed {t : List Nat} (hlow : lowerStr t = t)
    (hhead : t.headD 0 ≠ slashByte) (htok : hasToken physicalToken t = true) :
    normalizePath t = t := by
  unfold normalizePath
  rw [hlow, stripLeadingSlash_of_head_ne hhead, if_pos htok]

theorem decodeBinaryPath_ne_TooLong (cfg : GuardConfig) (bin : List Nat) :
    decodeBinaryPath cfg bin ≠ .error .TooLong := by
  unfold decodeBinaryPath
  split_ifs <;> simp

theorem traverseResultToEntityPath_ne_TooLong (cfg : GuardConfig)
    (r : Int × Option (List Nat)) :
    traverseResultToEntityPath cfg r ≠ .error .TooLong := by
  unfold traverseResultToEntityPath
  split_ifs <;> first | exact decodeBinaryPath_ne_TooLong cfg _ | simp

/-- C6: the three input forms `sys-0/node-0`, `/sys-0/node-0` and
`physical:sys-0/node-0` all normalize to the identical canonical string
`physical:sys-0/node-0`. -/
theorem c6_three_input_forms_normalize_identically :
    normalizePath (strBytes "sys-0/node-0") = strBytes "physical:sys-0/node-0" ∧
    normalizePath (strBytes "/sys-0/node-0") = strBytes "physical:sys-0/node-0" ∧
    normalizePath (strBytes "physical:sys-0/node-0") =
      strBytes "physical:sys-0/node-0" := by
  decide

/-- C10: the empty input string normalizes, without failing, to exactly
`physical:`, and the resolution pipeline then hands it to the traversal
rather than rejecting it (in particular it does not fail the length guard,
for any string-buffer capacity of at least 8). -/
theorem c10_empty_input_normalizes (cfg : GuardConfig) (tree : List DevTreeNode)
    (h : 8 ≤ cfg.physStringPathSize) :
    normalizePath [] = physicalToken ∧
    getEntityPathFromDevTreeE cfg tree [] ≠ .error .TooLong := by
  refine ⟨by decide, ?_⟩
  unfold getEntityPathFromDevTreeE
  have hlen : (normalizePath ([] : List Nat)).length = 9 := by decide
  rw [hlen, if_neg (by omega)]
  exact traverseResultToEntityPath_ne_TooLong cfg _

/-- C10 witness: the empty string at the concrete capacities. -/
theorem c10_empty_input_normalizes_witness :
    normalizePath [] = physicalToken ∧
    getEntityPathFromDevTreeE ⟨64, 21, 21, 8⟩ [] [] ≠ .error .TooLong :=
  c10_empty_input_normalizes ⟨64, 21, 21, 8⟩ [] (by decide)

/-- C2: the claim says an input whose normalized form (terminator included)
does not fit the fixed buffer fails with `TooLong` before any traversal.
The code instead tests `l_physicalPath.length() - 1 > sizeof(g_physStringPath)`
(its own comment says "To include NULL terminator", yet it subtracts 1), so
a normalized string of 65 bytes — which needs 66 bytes of storage against a
64-byte buffer — passes the guard and reaches the traversal: on the empty
topology the result is the `NotFound` error, not `TooLong`. -/
theorem c2_oversized_input_reaches_traversal :
    (normalizePath (strBytes "physical:" ++ List.replicate 56 97)).length + 1 > 64 ∧
    getEntityPathFromDevTreeE ⟨64, 21, 21, 8⟩ []
        (strBytes "physical:" ++ List.replicate 56 97) = .error .NotFound := by
  decide

/-- C3 counterexample: the claim predicts that an input containing
`physical:` somewhere other than at the start still gets the prefix
prepended; the code's `std::string::find` check fires on an occurrence at
any position, so `a/physical:b` is left unchanged and is not prefixed. -/
theorem c3_counterexample_inner_token_not_prepended :
    normalizePath (strBytes "a/physical:b") = strBytes "a/physical:b" ∧
    normalizePath (strBytes "a/physical:b") ≠
      physicalToken ++ strBytes "a/physical:b" := by
  decide

/-- C3 (amended): normalization prepends the scheme token if and only if
`physical:` does not occur anywhere (not merely at the start) in the
lower-cased, separator-stripped string. -/
theorem c3_amended_prepend_iff_token_absent (s : List Nat) :
    normalizePath s = physicalToken ++ stripLeadingSlash (lowerStr s) ↔
      hasToken physicalToken (stripLeadingSlash (lowerStr s)) = false := by
  unfold normalizePath
  split_ifs with h
  · have hne : stripLeadingSlash (lowerStr s) ≠
        physicalToken ++ stripLeadingSlash (lowerStr s) := by
      intro heq
      have := congrArg List.length heq
      simp [physicalToken] at this
      omega
    simp [h, hne]
  · simp only [Bool.not_eq_true] at h
    simp [h]

/-- C7 counterexample: normalization is not idempotent on every accepted
input.  `//physical:a` lower-cases to itself, loses one leading `/`, and —
since it already contains `physical:` — gets no prefix, leaving
`/physical:a`; a second application strips the remaining `/`. -/
theorem c7_counterexample_double_slash :
    normalizePath (normalizePath (strBytes "//physical:a")) ≠
      normalizePath (strBytes "//physical:a") := by
  decide

/-- C7 (amended): normalization is idempotent on every accepted input whose
normalized form does not begin with the separator `/` (the normalized form
begins with `/` exactly when the lower-cased input begins with `//` and
already contains `physical:`; there a second application strips one more
separator). -/
theorem c7_amended_normalize_idempotent_unless_slash_led (s : List Nat)
    (h : (normalizePath s).headD 0 ≠ slashByte) :
    normalizePath (normalizePath s) = normalizePath s :=
  normalizePath_fixed (normalizePath_lowered s) h (hasToken_normalizePath s)

/-- C7 witness: a concrete input whose normalized form is not `/`-led. -/
theorem c7_amended_witness :
    (normalizePath (strBytes "sys-0")).headD 0 ≠ slashByte ∧
    normalizePath (normalizePath (strBytes "sys-0")) =
      normalizePath (strBytes "sys-0") :=
  ⟨by decide,
   c7_amended_normalize_idempotent_unless_slash_led (strBytes "sys-0") (by decide)⟩

/-- C1: for a raw buffer whose first byte has low nibble `k ≤ maxPathElements`
(and with the capacity check passing), decoding succeeds with `type_size`
equal to byte 0 and the first `k` path elements equal to the
`(targetType, instance)` pairs at byte offsets `1 + 2*i` and `2 + 2*i`; and
a resolution whose traversal finds that buffer returns exactly that
`EntityPath`. -/
theorem c1_decode_mirrors_raw_buffer (cfg : GuardConfig) (bin : List Nat)
    (hsz : cfg.physBinaryPathSize ≤ cfg.entityPathSize)
    (hcount : (bin.getD 0 0) &&& 0x0F ≤ cfg.maxPathElements) :
    ∃ ep : EntityPath,
      decodeBinaryPath cfg bin = .ok ep ∧
      ep.type_size = bin.getD 0 0 ∧
      ep.pathElements.length = (bin.getD 0 0) &&& 0x0F ∧
      (∀ i : Nat, i < (bin.getD 0 0) &&& 0x0F →
        ep.pathElements[i]? =
          some { targetType := bin.getD (1 + 2 * i) 0,
                 inst := bin.getD (2 + 2 * i) 0 }) ∧
      (∀ (tree : List DevTreeNode) (p : List Nat),
        ¬ ((normalizePath p).length - 1 > cfg.physStringPathSize) →
        pdbg_traverse ((normalizePath p).take cfg.physStringPathSize) tree =
          (requireAttrFound, some bin) →
        getEntityPathFromDevTree cfg tree p = some ep) := by
  have hdec : decodeBinaryPath cfg bin =
      .ok { type_size := bin.getD 0 0,
            pathElements := decodePathElements bin ((bin.getD 0 0) &&& 0x0F) } := by
    unfold decodeBinaryPath
    rw [if_neg (by omega), if_neg (by omega)]
  refine ⟨_, hdec, rfl, ?_, ?_, ?_⟩
  · simp [decodePathElements]
  · intro i hi
    unfold decodePathElements
    rw [List.getElem?_map, List.getElem?_range hi]
    rfl
  · intro tree p hlen htrav
    unfold getEntityPathFromDevTree getEntityPathFromDevTreeE
    rw [if_neg hlen, htrav]
    simp [traverseResultToEntityPath, requireAttrFound, requireAttrNotFound, hdec,
      Except.toOption]

/-- C1 witness: a concrete buffer with count nibble 3. -/
theorem c1_decode_mirrors_raw_buffer_witness :
    ∃ ep : EntityPath,
      decodeBinaryPath ⟨64, 21, 21, 8⟩ [0x23, 5, 7, 9, 11] = .ok ep := by
  obtain ⟨ep, hep, -⟩ :=
    c1_decode_mirrors_raw_buffer ⟨64, 21, 21, 8⟩ [0x23, 5, 7, 9, 11]
      (by decide) (by decide)
  exact ⟨ep, hep⟩

/-- C4: every internal failure collapses to the absent result at the public
boundary, and the two traversal-level failures are distinguished only
internally: a traversal return of 0 yields `NotFound`, a return of
`requireAttrNotFound` yields `AttributeMissing`, and both are absent to the
caller. -/
theorem c4_failures_collapse_to_absent (cfg : GuardConfig)
    (tree : List DevTreeNode) (p : List Nat)
    (hlen : ¬ ((normalizePath p).length - 1 > cfg.physStringPathSize)) :
    (∀ e : GuardErr, getEntityPathFromDevTreeE cfg tree p = .error e →
        getEntityPathFromDevTree cfg tree p = none) ∧
    ((pdbg_traverse ((normalizePath p).take cfg.physStringPathSize) tree).fst = 0 →
        getEntityPathFromDevTreeE cfg tree p = .error .NotFound) ∧
    ((pdbg_traverse ((normalizePath p).take cfg.physStringPathSize) tree).fst =
          requireAttrNotFound →
        getEntityPathFromDevTreeE cfg tree p = .error .AttributeMissing) := by
  refine ⟨?_, ?_, ?_⟩
  · intro e he
    unfold getEntityPathFromDevTree
    rw [he]
    rfl
  · intro h0
    unfold getEntityPathFromDevTreeE
    rw [if_neg hlen]
    unfold traverseResultToEntityPath
    rw [if_pos h0]
  · intro h2
    unfold getEntityPathFromDevTreeE
    rw [if_neg hlen]
    unfold traverseResultToEntityPath
    rw [h2]
    norm_num [requireAttrNotFound]

/-- C4 witness: the empty topology at concrete capacities — no node matches,
the internal error is `NotFound`, the public result is absent. -/
theorem c4_failures_collapse_to_absent_witness :
    getEntityPathFromDevTreeE ⟨64, 21, 21, 8⟩ [] [] = .error .NotFound ∧
    getEntityPathFromDevTree ⟨64, 21, 21, 8⟩ [] [] = none := by
  have h := c4_failures_collapse_to_absent ⟨64, 21, 21, 8⟩ [] [] (by decide)
  exact ⟨h.2.1 (by decide), h.1 .NotFound (h.2.1 (by decide))⟩

/-- C5: the decoded element count is the low nibble only of the raw first
byte (`typeAndCount &&& 0x0F`, i.e. `typeAndCount % 16`, ignoring the high
nibble); whenever it exceeds `maxPathElements` the decode fails with
`CountOverflow`, and whenever the decode succeeds exactly that many elements
are populated. -/
theorem c5_count_from_low_nibble_only (cfg : GuardConfig) (bin : List Nat)
    (hsz : ¬ (cfg.entityPathSize < cfg.physBinaryPathSize)) :
    ((bin.getD 0 0) &&& 0x0F = (bin.getD 0 0) % 16) ∧
    ((bin.getD 0 0) &&& 0x0F > cfg.maxPathElements →
        decodeBinaryPath cfg bin = .error .CountOverflow) ∧
    (∀ ep : EntityPath, decodeBinaryPath cfg bin = .ok ep →
        ep.pathElements.length = (bin.getD 0 0) % 16) := by
  have h15 : (bin.getD 0 0) &&& 0x0F = (bin.getD 0 0) % 16 :=
    Nat.and_pow_two_sub_one_eq_mod (bin.getD 0 0) 4
  refine ⟨h15, ?_, ?_⟩
  · intro hover
    unfold decodeBinaryPath
    rw [if_neg hsz, if_pos hover]
  · intro ep hep
    unfold decodeBinaryPath at hep
    rw [if_neg hsz] at hep
    split at hep
    · cases hep
    · simp only [Except.ok.injEq] at hep
      subst hep
      simp only [decodePathElements, List.length_map, List.length_range]
      exact h15

/-- C5 witness: raw first byte `0x3F` (type nibble 3, count nibble 15) with
`maxPathElements = 8` fails with `CountOverflow`. -/
theorem c5_count_from_low_nibble_only_witness :
    decodeBinaryPath ⟨64, 21, 21, 8⟩ [0x3F] = .error .CountOverflow :=
  (c5_count_from_low_nibble_only ⟨64, 21, 21, 8⟩ [0x3F] (by decide)).2.1 (by decide)

/-- C8: when the destination `EntityPath` encoded capacity is smaller than
the raw buffer's declared capacity, the decode fails with `SizeMismatch`
regardless of the buffer contents (no element is decoded), and a resolution
whose traversal succeeded fails the same way. -/
theorem c8_size_mismatch_guards_decode (cfg : GuardConfig) (bin : List Nat)
    (h : cfg.entityPathSize < cfg.physBinaryPathSize) :
    decodeBinaryPath cfg bin = .error .SizeMismatch ∧
    ∀ (tree : List DevTreeNode) (p : List Nat),
      ¬ ((normalizePath p).length - 1 > cfg.physStringPathSize) →
      (pdbg_traverse ((normalizePath p).take cfg.physStringPathSize) tree).fst =
        requireAttrFound →
      getEntityPathFromDevTreeE cfg tree p = .error .SizeMismatch := by
  have hdec : ∀ b : List Nat, decodeBinaryPath cfg b = .error .SizeMismatch := by
    intro b
    unfold decodeBinaryPath
    rw [if_pos h]
  refine ⟨hdec bin, ?_⟩
  intro tree p hlen h1
  unfold getEntityPathFromDevTreeE
  rw [if_neg hlen]
  unfold traverseResultToEntityPath
  rw [h1]
  norm_num [requireAttrFound, requireAttrNotFound]
  exact hdec _

/-- C8 witness: a 20-byte destination against a 21-byte raw buffer. -/
theorem c8_size_mismatch_guards_decode_witness :
    decodeBinaryPath ⟨64, 21, 20, 8⟩ [] = .error .SizeMismatch :=
  (c8_size_mismatch_guards_decode ⟨64, 21, 20, 8⟩ [] (by decide)).1
